import Mathlib

/-!
Verification of the Baquetas Ayaman 3D wood-lathe visualization.

The repository builds a static three.js scene hierarchy of named primitive
meshes (`App.createLathe`), converts pointer events to normalized device
coordinates (`App.onMouseMove`), and, once per animation frame
(`App.animate`), resolves the nearest ray intersection to a part label and
shows or hides an info element.

Two revisions are embedded: `src/baquetas/main.js` (ancestor-bubbling
resolver, fixed info panel, full lathe with tailstock/clamp/tool-rest
detail) and `src/unnamed/part_000` (non-bubbling resolver, tooltip, reduced
lathe).  The external three.js raycaster is modelled by its documented
contract: it returns the list of ray/mesh intersections sorted by ascending
camera-space distance; geometry is embedded only where a concrete scenario
needs it (axis-aligned box of the bed beam, camera ray through the scene
center).
-/

namespace Ayaman

/-! ## Scene hierarchy (Part Nodes) -/

mutual

/-- A node of the scene hierarchy as built by `App.createLathe`: either a
renderable mesh (a `THREE.Mesh`; `name` is `""` when never assigned) or a
`THREE.Group` with an ordered list of children.  Geometry and material
parameters that play no role in hit labeling are not represented here; the
one box needed by a concrete ray scenario is embedded separately below. -/
inductive PartNode where
  | mesh (name : String) : PartNode
  | group (name : String) (children : PartNodeList) : PartNode

/-- Ordered children of a group node (a specialized list, so that recursion
over the hierarchy is structural). -/
inductive PartNodeList where
  | nil : PartNodeList
  | cons (head : PartNode) (tail : PartNodeList) : PartNodeList

end

/-- Converts an ordinary list of nodes into a `PartNodeList`. -/
def listToPNL : List PartNode → PartNodeList
  | [] => .nil
  | t :: ts => .cons t (listToPNL ts)

/-- A group node given its name and its children, mirroring
`new THREE.Group()` followed by `add` calls. -/
def groupNode (n : String) (cs : List PartNode) : PartNode :=
  .group n (listToPNL cs)

mutual

/-- All mesh leaves of a hierarchy, each paired with the list of names of
its ancestors, nearest parent first.  This is exactly the data consulted by
the resolver's upward walk (`target = target.parent`).  The scene root
above `latheGroup` is itself unnamed, so stopping the ancestor list at the
embedded root loses no label. -/
def chains : PartNode → List (String × List String)
  | .mesh n => [(n, [])]
  | .group n cs => (chainsList cs).map (fun p => (p.1, p.2 ++ [n]))

/-- `chains` over a list of sibling nodes, in order. -/
def chainsList : PartNodeList → List (String × List String)
  | .nil => []
  | .cons t ts => chains t ++ chainsList ts

end

/-- The mesh labels occurring in a hierarchy (names of mesh leaves). -/
def labelsOf (t : PartNode) : List String :=
  (chains t).map (fun p => p.1)

/-- The lathe hierarchy built by `App.createLathe` in
`src/baquetas/main.js`: every `new THREE.Mesh`/`new THREE.Group` with its
assigned `name` (groups are never assigned a name there, hence `""`), with
children listed in the order of the `add` calls. -/
def mainLathe : PartNode :=
  groupNode "" [
    .mesh "Bancada (Viga 1)",
    .mesh "Bancada (Viga 2)",
    .mesh "Base del Cabezal",
    groupNode "" [
      .mesh "Eje del Cabezal",
      .mesh "Polea del Cabezal",
      .mesh "Mandril / Plato",
      groupNode "" [
        .mesh "Base del Punto de Arrastre",
        .mesh "Punto de Arrastre (Punta)"],
      .mesh "Pieza de Trabajo (Madera)"],
    groupNode "" [
      .mesh "Suela Deslizable del Contrapunto",
      .mesh "Guía de Alineación inferior",
      .mesh "Alojamiento del Rodamiento",
      .mesh "Escuadra de Refuerzo",
      .mesh "Escuadra de Refuerzo",
      groupNode "" [
        .mesh "Soporte de Fijación",
        .mesh "Tornillo de Apriete",
        groupNode "" [
          .mesh "Manija de Fijación",
          .mesh "Manija de Fijación",
          .mesh "Manija de Fijación"]],
      .mesh "Rodamiento de Bolas",
      groupNode "" [
        .mesh "Punto Giratorio (Punta)",
        .mesh "Base de la Punta"]],
    groupNode "" [
      .mesh "Motor Eléctrico (Cuerpo)",
      .mesh "Eje del Motor",
      .mesh "Polea del Motor"],
    .mesh "Correa de Transmisión",
    .mesh "Base de la Bancada",
    groupNode "" [
      .mesh "Apoyo en T (Base)",
      groupNode "" [
        .mesh "Sistema de Rendija",
        .mesh "Sistema de Rendija",
        .mesh "Sistema de Rendija",
        .mesh "Sistema de Rendija",
        .mesh "Sistema de Rendija",
        .mesh "Sistema de Rendija",
        .mesh "Sistema de Rendija",
        .mesh "Sistema de Rendija"]]]

/-- The lathe hierarchy built by `App.createLathe` in
`src/unnamed/part_000` (the reduced revision: no drive/live center groups,
no clamp, no base plate, no tool rest). -/
def part000Lathe : PartNode :=
  groupNode "" [
    .mesh "Bancada (Viga 1)",
    .mesh "Bancada (Viga 2)",
    .mesh "Base del Cabezal",
    groupNode "" [
      .mesh "Eje del Cabezal",
      .mesh "Polea del Cabezal",
      .mesh "Mandril / Plato",
      .mesh "Pieza de Trabajo (Madera)"],
    groupNode "" [
      .mesh "Base del Contrapunto",
      .mesh "Punto Giratorio / Contrapunta"],
    groupNode "" [
      .mesh "Motor Eléctrico (Cuerpo)",
      .mesh "Eje del Motor",
      .mesh "Polea del Motor"],
    .mesh "Correa de Transmisión"]

/-- The user-identifiable part labels the specification requires the Scene
Builder to assign (bed beams; headstock; spindle shaft, pulley and chuck;
drive and live centers; tailstock housing and clamp; motor body, shaft and
pulley; transmission belt; workpiece; base plate; tool-rest assemblies),
written with the label strings the source uses for those parts.  This list
follows the specification's wording, to be compared with the constructed
hierarchy. -/
def requiredLabels : List String :=
  ["Bancada (Viga 1)", "Bancada (Viga 2)",
   "Base del Cabezal",
   "Eje del Cabezal", "Polea del Cabezal", "Mandril / Plato",
   "Punto de Arrastre (Punta)", "Punto Giratorio (Punta)",
   "Alojamiento del Rodamiento", "Soporte de Fijación",
   "Motor Eléctrico (Cuerpo)", "Eje del Motor", "Polea del Motor",
   "Correa de Transmisión",
   "Pieza de Trabajo (Madera)",
   "Base de la Bancada",
   "Apoyo en T (Base)", "Sistema de Rendija"]

/-! ## Hit Resolver -/

/-- One entry of the list returned by the library's
`raycaster.intersectObjects`: its camera-space `distance`, the `name` of
the intersected mesh, and the names of that mesh's ancestors, nearest
parent first (the data the resolver's parent walk reads). -/
structure Intersection where
  distance : ℚ
  name : String
  ancestors : List String
deriving DecidableEq, Repr

/-- Distance comparison between two intersections. -/
def distLe (a b : Intersection) : Prop :=
  a.distance ≤ b.distance

instance : DecidableRel distLe :=
  fun a b => inferInstanceAs (Decidable (a.distance ≤ b.distance))

instance : IsTotal Intersection distLe :=
  ⟨fun a b => le_total a.distance b.distance⟩

instance : IsTrans Intersection distLe :=
  ⟨fun _ _ _ h1 h2 => le_trans h1 h2⟩

/-- Model of the library's `intersectObjects` ordering contract: the
intersections are returned sorted by ascending camera-space distance, so
`intersects[0]` is a nearest hit. -/
def sortByDist (hits : List Intersection) : List Intersection :=
  hits.insertionSort distLe

/-- The upward walk of `src/baquetas/main.js`
(`while (target && !target.name && target.parent) target = target.parent`
followed by `if (target && target.name)`): starting from the hit mesh's
name and its ancestor names, returns the first non-empty name found, or
`none` when the root is reached with every name empty. -/
def bubbleUp : String → List String → Option String
  | n, [] => if n = "" then none else some n
  | n, a :: rest => if n = "" then bubbleUp a rest else some n

/-- The Hit Resolver of `src/baquetas/main.js` (`App.animate`): if there
are no intersections the result is `none`; otherwise the nearest
intersection (`intersects[0]` of the sorted list) starts the ancestor
walk. -/
def hitResolve (hits : List Intersection) : Option String :=
  match sortByDist hits with
  | [] => none
  | i :: _ => bubbleUp i.name i.ancestors

/-- The Hit Resolver of `src/unnamed/part_000` (`App.animate`): no
ancestor walk; the nearest intersected mesh's own name is used if
non-empty, else `none`. -/
def hitResolveFlat (hits : List Intersection) : Option String :=
  match sortByDist hits with
  | [] => none
  | i :: _ => if i.name = "" then none else some i.name

/-! ## Feedback Presenter -/

/-- The info element mutated by `App.animate` in `src/baquetas/main.js`:
its displayed text (`partNameDisplay.innerText`) and whether it is shown
(`infoBox.style.opacity` equal to `1` rather than `0`).  Note the hiding
branch only changes the opacity and leaves the stale text in place, exactly
as the source does. -/
structure InfoBox where
  text : String
  visible : Bool
deriving DecidableEq, Repr

/-- Modelled from the spec: the initial Feedback State is HIDDEN (the page
markup/stylesheet that gives the info box its initial appearance is not
under src/). -/
def initialInfoBox : InfoBox :=
  { text := "", visible := false }

/-- One frame of the Feedback Presenter (`App.animate`, both branches that
hide and the branch that shows): a named hit sets the text and shows the
box; `none` hides it. -/
def presentFrame (hit : Option String) (box : InfoBox) : InfoBox :=
  match hit with
  | some n => { text := n, visible := true }
  | none => { box with visible := false }

/-- The specification's two-state view of the presenter. -/
inductive FeedbackState where
  | hidden : FeedbackState
  | visible (label : String) : FeedbackState
deriving DecidableEq, Repr

/-- Abstraction of the concrete info element to the specification's state
machine: shown with text `l` is `VISIBLE(l)`; not shown is `HIDDEN`. -/
def absState (box : InfoBox) : FeedbackState :=
  if box.visible then .visible box.text else .hidden

/-- The presenter run over a sequence of per-frame Hit Results, starting
from the initial (hidden) info element. -/
def feedbackTrace (hits : List (Option String)) : InfoBox :=
  hits.foldl (fun box h => presentFrame h box) initialInfoBox

/-! ## Pointer Tracker and frame step -/

/-- The normalized pointer coordinate stored in `this.mouse`. -/
structure MouseState where
  x : ℚ
  y : ℚ
deriving DecidableEq, Repr

/-- `App.onMouseMove`: maps the event's pixel coordinates and the current
viewport size to normalized device coordinates and stores them, replacing
the previous value (identical in both revisions). -/
def onMouseMove (width height px py : ℚ) (_m : MouseState) : MouseState :=
  { x := (px / width) * 2 - 1, y := -(py / height) * 2 + 1 }

/-- A point or direction with rational coordinates. -/
structure Vec3 where
  x : ℚ
  y : ℚ
  z : ℚ
deriving DecidableEq, Repr

/-- The per-frame state read and written by `App.animate`: the pointer
state, the camera position, the static lathe hierarchy and the info
element. -/
structure AppState where
  mouse : MouseState
  cameraPos : Vec3
  latheGroup : PartNode
  infoBox : InfoBox

/-- The frame's Hit Result: the library raycast (an external collaborator,
passed as a function) applied to the pointer state, camera and hierarchy,
fed into the resolver. -/
def resolveFrame (raycast : MouseState → Vec3 → PartNode → List Intersection)
    (s : AppState) : Option String :=
  hitResolve (raycast s.mouse s.cameraPos s.latheGroup)

/-- One iteration of `App.animate` restricted to the state it writes: the
info element is updated from the Hit Result; pointer, camera and hierarchy
are not assigned. -/
def animateStep (raycast : MouseState → Vec3 → PartNode → List Intersection)
    (s : AppState) : AppState :=
  { s with infoBox := presentFrame (resolveFrame raycast s) s.infoBox }

/-! ## Concrete geometry for the center-ray scenario -/

/-- An axis-aligned box given by its two corners. -/
structure Aabb where
  lo : Vec3
  hi : Vec3
deriving DecidableEq, Repr

/-- The axis-aligned box of a `THREE.BoxGeometry sx sy sz` whose mesh is
positioned (unrotated) at center `(cx, cy, cz)`. -/
def boxAt (cx cy cz sx sy sz : ℚ) : Aabb :=
  { lo := ⟨cx - sx / 2, cy - sy / 2, cz - sz / 2⟩,
    hi := ⟨cx + sx / 2, cy + sy / 2, cz + sz / 2⟩ }

/-- Model of the library's ray/box intersection test (slab method) for a
ray `o + t * d`, `t ≥ 0`, with all components of `d` non-zero: the box is
hit exactly when the three per-axis parameter intervals overlap at some
non-negative `t`. -/
def rayHitsBox (o d : Vec3) (b : Aabb) : Bool :=
  let tx1 := (b.lo.x - o.x) / d.x
  let tx2 := (b.hi.x - o.x) / d.x
  let ty1 := (b.lo.y - o.y) / d.y
  let ty2 := (b.hi.y - o.y) / d.y
  let tz1 := (b.lo.z - o.z) / d.z
  let tz2 := (b.hi.z - o.z) / d.z
  let tmin := max (max (min tx1 tx2) (min ty1 ty2)) (min tz1 tz2)
  let tmax := min (min (max tx1 tx2) (max ty1 ty2)) (max tz1 tz2)
  decide (tmin ≤ tmax ∧ 0 ≤ tmax)

/-- The default camera position `camera.position.set(4, 3, 6)` of
`App.init`. -/
def cameraPosition : Vec3 := ⟨4, 3, 6⟩

/-- Direction of the ray cast at normalized pointer position `(0, 0)` with
the camera at its default position looking at the origin (the orbit
controls' default target): the view direction `(0,0,0) - (4,3,6)`,
unnormalized (hit or miss is invariant under positive scaling of the
direction). -/
def centerRayDir : Vec3 := ⟨-4, -3, -6⟩

/-- World-space box of the first bed beam of `src/baquetas/main.js`:
`BoxGeometry(9.5, 0.4, 0.4)` at position `(0.75, 0, 0.3)` inside the
untransformed `latheGroup`. -/
def beam1Box : Aabb := boxAt 0.75 0 0.3 9.5 0.4 0.4

/-! ## Helper lemmas -/

/-- The walk stops immediately at a labeled node. -/
lemma bubbleUp_named (n : String) (anc : List String) (hn : n ≠ "") :
    bubbleUp n anc = some n := by
  cases anc <;> simp [bubbleUp, hn]

/-- Started at an unlabeled node, the walk returns the first labeled
ancestor (and `none` when there is none). -/
lemma bubbleUp_unnamed (anc : List String) :
    bubbleUp "" anc = anc.find? (fun a => a ≠ "") := by
  induction anc with
  | nil => rfl
  | cons a rest ih =>
    by_cases ha : a = ""
    · subst ha
      simpa [bubbleUp, List.find?] using ih
    · simp [bubbleUp, List.find?, ha, bubbleUp_named a rest ha]

/-- The head of the sorted intersection list is an element of the original
list and has minimal distance in it. -/
lemma sortByDist_head_min (hits : List Intersection) (i : Intersection)
    (h : (sortByDist hits).head? = some i) :
    i ∈ hits ∧ ∀ j ∈ hits, i.distance ≤ j.distance := by
  have hperm : (sortByDist hits).Perm hits := List.perm_insertionSort distLe hits
  have hsort : List.Sorted distLe (sortByDist hits) := List.sorted_insertionSort distLe hits
  cases hs : sortByDist hits with
  | nil => rw [hs] at h; cases h
  | cons a rest =>
    rw [hs] at h hperm hsort
    rw [List.head?_cons] at h
    injection h with h
    subst h
    obtain ⟨hmin, -⟩ := List.sorted_cons.mp hsort
    refine ⟨hperm.subset (List.mem_cons_self _ _), ?_⟩
    intro j hj
    rcases List.mem_cons.mp ((hperm.mem_iff).mpr hj) with hj' | hj'
    · rw [hj']
    · exact hmin j hj'

/-- Every mesh chain of the `src/baquetas/main.js` hierarchy starts at a
non-empty mesh name. -/
lemma mainLathe_chains_named : ∀ c ∈ chains mainLathe, c.1 ≠ "" := by decide

/-- Every mesh chain of the `src/unnamed/part_000` hierarchy starts at a
non-empty mesh name. -/
lemma part000Lathe_chains_named : ∀ c ∈ chains part000Lathe, c.1 ≠ "" := by decide

/-! ## Claim theorems -/

/-- C1: in any frame in which the ray intersects at least one surface, if
the nearest hit's node carries no label, the `src/baquetas/main.js` Hit
Resolver walks upward through its ancestors and returns the label of the
first labeled ancestor; in particular the result is `none` exactly when the
root is reached with no labeled ancestor found. -/
theorem c1_unlabeled_hit_resolves_to_first_labeled_ancestor
    (hits : List Intersection) (i : Intersection)
    (hnear : (sortByDist hits).head? = some i)
    (hunlabeled : i.name = "") :
    hitResolve hits = i.ancestors.find? (fun a => a ≠ "") := by
  unfold hitResolve
  cases hs : sortByDist hits with
  | nil => rw [hs] at hnear; cases hnear
  | cons a rest =>
    rw [hs] at hnear
    rw [List.head?_cons] at hnear
    injection hnear with hnear
    subst hnear
    show bubbleUp a.name a.ancestors = _
    rw [hunlabeled]
    exact bubbleUp_unnamed _

/-- C1 witness: a hit on an unlabeled sub-mesh whose parent is the labeled
slit-assembly group resolves to the group's label. -/
theorem c1_unlabeled_hit_witness :
    hitResolve [⟨1, "", ["Sistema de Rendija", ""]⟩] = some "Sistema de Rendija" := by
  have h := c1_unlabeled_hit_resolves_to_first_labeled_ancestor
    [⟨1, "", ["Sistema de Rendija", ""]⟩] ⟨1, "", ["Sistema de Rendija", ""]⟩ rfl rfl
  rw [h]
  decide

/-- C2: the Feedback Presenter, started hidden, realizes the two-state
machine of the spec: after any frame it is `VISIBLE l` exactly when that
frame's Hit Result was the named hit `l`, and `HIDDEN` exactly when it was
`none`; no other state occurs. -/
theorem c2_feedback_two_state_machine
    (hits : List (Option String)) (k : ℕ) (hk : k < hits.length) :
    absState initialInfoBox = FeedbackState.hidden ∧
    absState (feedbackTrace (hits.take (k + 1))) =
      (match hits[k] with
       | some l => FeedbackState.visible l
       | none => FeedbackState.hidden) := by
  refine ⟨rfl, ?_⟩
  have ht : hits.take (k + 1) = hits.take k ++ [hits[k]] := by
    rw [List.take_succ, List.getElem?_eq_getElem hk]
    rfl
  rw [ht]
  unfold feedbackTrace
  rw [List.foldl_append]
  rcases h : hits[k] with _ | l <;> simp [h, presentFrame, absState]

/-- C2 witness: a frame reporting the chuck's name brings the presenter to
the visible state showing that name. -/
theorem c2_feedback_witness :
    absState initialInfoBox = FeedbackState.hidden ∧
    absState (feedbackTrace ([none, some "Mandril / Plato"].take (1 + 1))) =
      FeedbackState.visible "Mandril / Plato" := by
  have h := c2_feedback_two_state_machine [none, some "Mandril / Plato"] 1 (by decide)
  simpa using h

/-- C3: with zero intersections the resolver returns `none`, and the
presenter ends the frame hidden (whatever the info element showed
before). -/
theorem c3_zero_intersections_hidden :
    hitResolve [] = none ∧
    ∀ box : InfoBox,
      absState (presentFrame (hitResolve []) box) = FeedbackState.hidden :=
  ⟨rfl, fun _ => rfl⟩

/-- C4: with at least one intersection, the intersection the resolver
starts label resolution from is one of the frame's intersections and has
the smallest camera-space distance among them. -/
theorem c4_nearest_intersection_selected
    (hits : List Intersection) (i : Intersection)
    (hnear : (sortByDist hits).head? = some i) :
    i ∈ hits ∧ (∀ j ∈ hits, i.distance ≤ j.distance) ∧
    hitResolve hits = bubbleUp i.name i.ancestors := by
  obtain ⟨hmem, hmin⟩ := sortByDist_head_min hits i hnear
  refine ⟨hmem, hmin, ?_⟩
  unfold hitResolve
  cases hs : sortByDist hits with
  | nil => rw [hs] at hnear; cases hnear
  | cons a rest =>
    rw [hs] at hnear
    rw [List.head?_cons] at hnear
    injection hnear with hnear
    subst hnear
    rfl

/-- C4 witness: among distances 5, 2 and 7 the resolver starts from the
distance-2 intersection and reports its label. -/
theorem c4_nearest_witness :
    (⟨2, "b", []⟩ : Intersection) ∈
      [(⟨5, "a", []⟩ : Intersection), ⟨2, "b", []⟩, ⟨7, "c", []⟩] ∧
    (2 : ℚ) ≤ 5 ∧
    hitResolve [⟨5, "a", []⟩, ⟨2, "b", []⟩, ⟨7, "c", []⟩] = some "b" := by
  have h := c4_nearest_intersection_selected
    [⟨5, "a", []⟩, ⟨2, "b", []⟩, ⟨7, "c", []⟩] ⟨2, "b", []⟩ rfl
  exact ⟨h.1, h.2.1 ⟨5, "a", []⟩ (by simp), h.2.2⟩

/-- C5: on every pointer-move event the stored Pointer State is exactly
`((px / width) * 2 - 1, -(py / height) * 2 + 1)`, replacing the previous
value. -/
theorem c5_pointer_mapping (width height px py : ℚ) (m : MouseState) :
    onMouseMove width height px py m =
      { x := (px / width) * 2 - 1, y := -(py / height) * 2 + 1 } := rfl

/-- C6: the Hit Resolver is a pure function of the Pointer State, the
camera transform and the scene hierarchy: two frames whose pointer, camera
and hierarchy agree produce the identical Hit Result, and the frame step
does not mutate the hierarchy (nor the pointer or camera). -/
theorem c6_resolver_pure
    (raycast : MouseState → Vec3 → PartNode → List Intersection)
    (s t : AppState) (hm : s.mouse = t.mouse) (hc : s.cameraPos = t.cameraPos)
    (hl : s.latheGroup = t.latheGroup) :
    resolveFrame raycast s = resolveFrame raycast t ∧
    (animateStep raycast s).latheGroup = s.latheGroup ∧
    (animateStep raycast s).mouse = s.mouse ∧
    (animateStep raycast s).cameraPos = s.cameraPos := by
  refine ⟨?_, rfl, rfl, rfl⟩
  unfold resolveFrame
  rw [hm, hc, hl]

/-- C6 witness: a concrete frame state, resolved twice with nothing
changed, gives the same result and an untouched hierarchy. -/
theorem c6_resolver_pure_witness :
    resolveFrame (fun _ _ _ => []) ⟨⟨0, 0⟩, cameraPosition, mainLathe, initialInfoBox⟩ =
      resolveFrame (fun _ _ _ => []) ⟨⟨0, 0⟩, cameraPosition, mainLathe, initialInfoBox⟩ ∧
    (animateStep (fun _ _ _ => [])
        ⟨⟨0, 0⟩, cameraPosition, mainLathe, initialInfoBox⟩).latheGroup = mainLathe ∧
    (animateStep (fun _ _ _ => [])
        ⟨⟨0, 0⟩, cameraPosition, mainLathe, initialInfoBox⟩).mouse = ⟨0, 0⟩ ∧
    (animateStep (fun _ _ _ => [])
        ⟨⟨0, 0⟩, cameraPosition, mainLathe, initialInfoBox⟩).cameraPos = cameraPosition :=
  c6_resolver_pure (fun _ _ _ => []) _ _ rfl rfl rfl

/-- C7: every user-identifiable part the specification lists appears as a
labeled node in the hierarchy built by `src/baquetas/main.js`. -/
theorem c7_required_labels_present :
    ∀ l ∈ requiredLabels, l ∈ labelsOf mainLathe := by decide

/-- C7 witness: the transmission belt's label is among the hierarchy's
labels. -/
theorem c7_required_labels_witness :
    "Correa de Transmisión" ∈ labelsOf mainLathe :=
  c7_required_labels_present "Correa de Transmisión" (by decide)

/-- C8 counterexample: the claim that the stored Pointer State always lies
in [-1, 1] × [-1, 1] fails for an out-of-viewport pointer-move event: pixel
x of 300 in a 100-wide viewport stores normalized x of 5. -/
theorem c8_out_of_square_counterexample :
    (onMouseMove 100 100 300 50 ⟨0, 0⟩).x = 5 ∧
    ¬((onMouseMove 100 100 300 50 ⟨0, 0⟩).x ≤ 1) := by
  constructor
  · show (300 : ℚ) / 100 * 2 - 1 = 5
    norm_num
  · show ¬((300 : ℚ) / 100 * 2 - 1 ≤ 1)
    norm_num

/-- C8 (amended): for pointer-move events whose pixel coordinates lie
inside the viewport, the stored Pointer State lies in [-1, 1] × [-1, 1];
events outside the viewport store coordinates outside that square. -/
theorem c8_normalized_in_square_for_viewport_events
    (width height px py : ℚ) (m : MouseState)
    (hw : 0 < width) (hh : 0 < height)
    (hpx0 : 0 ≤ px) (hpxw : px ≤ width)
    (hpy0 : 0 ≤ py) (hpyh : py ≤ height) :
    -1 ≤ (onMouseMove width height px py m).x ∧
    (onMouseMove width height px py m).x ≤ 1 ∧
    -1 ≤ (onMouseMove width height px py m).y ∧
    (onMouseMove width height px py m).y ≤ 1 := by
  have hx0 : 0 ≤ px / width := div_nonneg hpx0 hw.le
  have hx1 : px / width ≤ 1 := (div_le_one hw).mpr hpxw
  have hy0 : 0 ≤ py / height := div_nonneg hpy0 hh.le
  have hy1 : py / height ≤ 1 := (div_le_one hh).mpr hpyh
  refine ⟨?_, ?_, ?_, ?_⟩
  · show -1 ≤ (px / width) * 2 - 1
    linarith
  · show (px / width) * 2 - 1 ≤ 1
    linarith
  · show -1 ≤ -(py / height) * 2 + 1
    linarith
  · show -(py / height) * 2 + 1 ≤ 1
    linarith

/-- C8 witness: an in-viewport event lands in the square. -/
theorem c8_normalized_in_square_witness :
    -1 ≤ (onMouseMove 200 100 50 25 ⟨0, 0⟩).x ∧
    (onMouseMove 200 100 50 25 ⟨0, 0⟩).x ≤ 1 ∧
    -1 ≤ (onMouseMove 200 100 50 25 ⟨0, 0⟩).y ∧
    (onMouseMove 200 100 50 25 ⟨0, 0⟩).y ≤ 1 :=
  c8_normalized_in_square_for_viewport_events 200 100 50 25 ⟨0, 0⟩
    (by norm_num) (by norm_num) (by norm_num) (by norm_num) (by norm_num) (by norm_num)

/-- C9: with the pointer at normalized center (0, 0) and the camera at its
default position (4, 3, 6) looking at the origin, the ray hits the bed
beam's box, so the frame has at least one intersection; and since every
intersection of that frame comes from the lathe hierarchy, whose meshes all
carry labels, the resolver returns a non-none label. -/
theorem c9_center_ray_yields_label (hits : List Intersection)
    (hcomplete : rayHitsBox cameraPosition centerRayDir beam1Box = true → hits ≠ [])
    (hscene : ∀ i ∈ hits, (i.name, i.ancestors) ∈ chains mainLathe) :
    rayHitsBox cameraPosition centerRayDir beam1Box = true ∧
    hitResolve hits ≠ none := by
  have hgeo : rayHitsBox cameraPosition centerRayDir beam1Box = true := by
    simp only [rayHitsBox, cameraPosition, centerRayDir, beam1Box, boxAt,
      decide_eq_true_eq]
    norm_num [min_def, max_def]
  refine ⟨hgeo, ?_⟩
  have hne : hits ≠ [] := hcomplete hgeo
  unfold hitResolve
  cases hs : sortByDist hits with
  | nil =>
    have hperm : (sortByDist hits).Perm hits := List.perm_insertionSort distLe hits
    rw [hs] at hperm
    exact absurd hperm.symm.eq_nil hne
  | cons a rest =>
    have ha : a ∈ hits := by
      have hperm : (sortByDist hits).Perm hits := List.perm_insertionSort distLe hits
      exact hperm.subset (by rw [hs]; exact List.mem_cons_self a rest)
    have hname : a.name ≠ "" :=
      mainLathe_chains_named (a.name, a.ancestors) (hscene a ha)
    show bubbleUp a.name a.ancestors ≠ none
    rw [bubbleUp_named a.name a.ancestors hname]
    simp

/-- C9 witness: the frame's intersection list containing the bed-beam hit
resolves to a non-none label. -/
theorem c9_center_ray_witness :
    rayHitsBox cameraPosition centerRayDir beam1Box = true ∧
    hitResolve [⟨1, "Bancada (Viga 1)", [""]⟩] ≠ none :=
  c9_center_ray_yields_label [⟨1, "Bancada (Viga 1)", [""]⟩]
    (fun _ => by simp) (by decide)

/-- C10: every mesh of both revisions' hierarchies carries a non-empty
name, so for any frame whose intersections come from those hierarchies the
nearest hit's own node is labeled, the ancestor-walk fallback never fires,
and the bubbling resolver of `src/baquetas/main.js` and the non-bubbling
resolver of `src/unnamed/part_000` agree. -/
theorem c10_every_mesh_labeled (hits : List Intersection)
    (hscene : ∀ i ∈ hits,
      (i.name, i.ancestors) ∈ chains mainLathe ∨
      (i.name, i.ancestors) ∈ chains part000Lathe) :
    (∀ c ∈ chains mainLathe, c.1 ≠ "") ∧
    (∀ c ∈ chains part000Lathe, c.1 ≠ "") ∧
    hitResolve hits = hitResolveFlat hits := by
  refine ⟨mainLathe_chains_named, part000Lathe_chains_named, ?_⟩
  unfold hitResolve hitResolveFlat
  cases hs : sortByDist hits with
  | nil => rfl
  | cons a rest =>
    have ha : a ∈ hits := by
      have hperm : (sortByDist hits).Perm hits := List.perm_insertionSort distLe hits
      exact hperm.subset (by rw [hs]; exact List.mem_cons_self a rest)
    have hname : a.name ≠ "" := by
      rcases hscene a ha with h | h
      · exact mainLathe_chains_named (a.name, a.ancestors) h
      · exact part000Lathe_chains_named (a.name, a.ancestors) h
    show bubbleUp a.name a.ancestors = if a.name = "" then none else some a.name
    rw [bubbleUp_named a.name a.ancestors hname, if_neg hname]

/-- C10 witness: both resolver variants give the chuck's label for a frame
hitting the chuck, and a sample mesh label is non-empty. -/
theorem c10_every_mesh_labeled_witness :
    ("Pieza de Trabajo (Madera)" : String) ≠ "" ∧
    hitResolve [⟨3, "Mandril / Plato", ["", ""]⟩] =
      hitResolveFlat [⟨3, "Mandril / Plato", ["", ""]⟩] := by
  have h := c10_every_mesh_labeled [⟨3, "Mandril / Plato", ["", ""]⟩] (by decide)
  exact ⟨h.1 ("Pieza de Trabajo (Madera)", ["", ""]) (by decide), h.2.2⟩

end Ayaman
